import Mathlib

/-!
Verification of the Pattern Detection & Template Recommendation Engine of the
Prompt-Engineering-Studio repository (`src/backend/app`), shallowly embedded in Lean.

Python strings are modelled as `String` / `List Char` (Python `len` counts code
points, as does `List.length` on `.data`); Python floats are modelled as `ℚ`
(the spec's confidences and scores live at that abstraction); Python `dict`s
keyed by pattern name are modelled as association lists in insertion order,
mirroring Python's ordered dicts.  The external LLM collaborator is modelled as
an `Option`-valued oracle argument (`none` = transport failure / exception /
empty response), as the spec treats it as an opaque capability.
-/

/-! ### Character-list utilities (models of the Python `str` operations used) -/

/-- A stand-alone left-brace character (written via its code point). -/
def lbraceChar : Char := Char.ofNat 123

/-- A stand-alone right-brace character (written via its code point). -/
def rbraceChar : Char := Char.ofNat 125

/-- The apostrophe character, used to build keyword literals containing one. -/
def aposChar : Char := Char.ofNat 39

/-- Apostrophe as a one-character string. -/
def apos : String := String.mk [aposChar]

/-- Model of Python `str.lower()` applied character-wise. -/
def toLowerList (cs : List Char) : List Char := cs.map Char.toLower

/-- Model of Python `str.strip()`: drop leading and trailing whitespace. -/
def pyStripList (cs : List Char) : List Char :=
  ((cs.dropWhile Char.isWhitespace).reverse.dropWhile Char.isWhitespace).reverse

/-- `pyStripList` lifted to `String`. -/
def pyStrip (s : String) : String := String.mk (pyStripList s.data)

/-- Model of Python's substring test `pat in text`. -/
def isSubstr (pat text : List Char) : Bool :=
  text.tails.any (fun t => pat.isPrefixOf t)

/-- Model of Python `str.replace(pat, rep)`: replace every non-overlapping
occurrence of `pat`, scanning left to right.  (Python's behaviour for an empty
`pat` is never exercised by the code under verification; here an empty `pat`
leaves the text unchanged.) -/
def listReplaceAux (pat rep : List Char) : Nat → List Char → List Char
  | 0, cs => cs
  | _ + 1, [] => []
  | fuel + 1, c :: rest =>
    if pat ≠ [] ∧ pat.isPrefixOf (c :: rest) = true then
      rep ++ listReplaceAux pat rep fuel ((c :: rest).drop pat.length)
    else
      c :: listReplaceAux pat rep fuel rest

/-- `listReplaceAux` with enough fuel: every step consumes at least one text
character, so `cs.length` steps always complete the scan. -/
def listReplace (pat rep cs : List Char) : List Char :=
  listReplaceAux pat rep cs.length cs

/-! ### A model of the fragment of Python `re` used by the pattern catalog

Every trigger in `AdvancedPromptPatternDetector.__init__` is a concatenation of
literal text and `.*` gaps (no other regex constructs occur).  `.` in Python
`re` (no `DOTALL`) matches any character except a newline, and `*` is greedy;
`re.finditer` returns the non-overlapping matches obtained by scanning for the
leftmost match, taking the greedy (backtracking, longest-gap-first) extent, and
resuming at the end of each match.  `re.IGNORECASE` is immaterial here because
`detect_patterns` matches lower-cased keywords against the lower-cased prompt.
-/

/-- One token of a compiled trigger: a literal chunk, or a greedy `.*` gap. -/
inductive Tok where
  | lit (s : List Char) : Tok
  | star : Tok
deriving DecidableEq, Repr

/-- A compiled trigger: the concatenation of its tokens. -/
abbrev Pat := List Tok

/-- Split a regex source string at each `.*` occurrence (the only regex
operator appearing in the catalog's triggers). -/
def splitOnDotStar : List Char → List (List Char)
  | [] => [[]]
  | '.' :: '*' :: rest => [] :: splitOnDotStar rest
  | c :: rest =>
    match splitOnDotStar rest with
    | seg :: segs => (c :: seg) :: segs
    | [] => [[c]]

/-- Compile a trigger's regex source into a `Pat`. -/
def compilePat (s : String) : Pat :=
  ((splitOnDotStar s.data).map Tok.lit).intersperse Tok.star

/-- Try to match the token list at the head of `cs`; on success return the
remaining suffix after the (greedy) match.  A `.*` gap may not cross a newline
and its extents are tried longest-first (`List.range` reversed), which is
Python's greedy backtracking order. -/
def matchToks : List Tok → List Char → Option (List Char)
  | [], cs => some cs
  | Tok.lit s :: rest, cs =>
    if s.isPrefixOf cs then matchToks rest (cs.drop s.length) else none
  | Tok.star :: rest, cs =>
    (List.range ((cs.takeWhile (fun c => c != '\n')).length + 1)).reverse.findSome?
      (fun k => matchToks rest (cs.drop k))

/-- Leftmost match of `pat` in `cs`: the smallest start offset at which
`matchToks` succeeds, together with the greedy match length. -/
def findFirst (pat : Pat) : List Char → Option (Nat × Nat)
  | [] => (matchToks pat []).map (fun r => (0, ([] : List Char).length - r.length))
  | c :: cs' =>
    match matchToks pat (c :: cs') with
    | some r => some (0, (c :: cs').length - r.length)
    | none => (findFirst pat cs').map (fun p => (p.1 + 1, p.2))

/-- Model of `re.search`: does `pat` match anywhere in `cs`? -/
def reSearch (pat : Pat) (cs : List Char) : Bool := (findFirst pat cs).isSome

/-- Fueled worker for `findIter`; the fuel bounds the number of matches, which
is at most `cs.length + 1` since every step advances the scan position. -/
def findIterAux (pat : Pat) : Nat → List Char → List (Nat × Nat)
  | 0, _ => []
  | Nat.succ fuel, cs =>
    match findFirst pat cs with
    | none => []
    | some (s, l) =>
      let step := s + max l 1
      (s, l) :: (findIterAux pat fuel (cs.drop step)).map (fun p => (p.1 + step, p.2))

/-- Model of `re.finditer`: the `(start, length)` spans of the non-overlapping
matches of `pat` in `cs`, scanning left to right. -/
def findIter (pat : Pat) (cs : List Char) : List (Nat × Nat) :=
  findIterAux pat (cs.length + 1) cs

/-! ### Data model (`app/models/analysis.py`) -/

/-- `PatternMatch` (pydantic model in `app/models/analysis.py`): one detected
pattern.  `confidence` is a Python float, modelled as `ℚ`. -/
structure PatternMatch where
  pattern : String
  confidence : ℚ
  evidence : List String
  description : String
  category : String
deriving DecidableEq, Repr

/-- One entry of `AdvancedPromptPatternDetector.self.patterns`: trigger regexes
(compiled), description and category.  `negative_keywords` appears in the
source only on the `zero_shot` entry and is never read by any code path; it is
carried here for fidelity. -/
structure PatternInfo where
  name : String
  keywords : List Pat
  negative_keywords : List Pat := []
  description : String
  category : String
deriving DecidableEq, Repr

/-! ### The static pattern catalog (`AdvancedPromptPatternDetector.__init__`)

Entries appear in the source dictionary's insertion order.  The `zero_shot`
and `few_shot` entries are named separately because `detect_patterns` treats
them specially (`zero_shot` is the sentinel; its check reads
`self.patterns['few_shot']['keywords']`). -/

/-- The `few_shot` trigger list (`self.patterns['few_shot']['keywords']`). -/
def fewShotKeywords : List Pat :=
  [compilePat "here are examples", compilePat "example:", compilePat "for instance",
   compilePat "like this:", compilePat "sample:", compilePat "input:.*output:"]

/-- The `zero_shot` catalog entry. -/
def zeroShotInfo : PatternInfo :=
  { name := "zero_shot"
    keywords := []
    negative_keywords := [compilePat "example", compilePat "for instance", compilePat "like this"]
    description := "Direct task without examples"
    category := "Basic" }

/-- The `few_shot` catalog entry. -/
def fewShotInfo : PatternInfo :=
  { name := "few_shot"
    keywords := fewShotKeywords
    description := "Provides examples before the task"
    category := "Basic" }

/-- The catalog entries after `zero_shot` and `few_shot`, in source order. -/
def restPatterns : List PatternInfo :=
  [{ name := "role_prompting"
     keywords := [compilePat "you are a", compilePat "act as", compilePat "you are an",
                  compilePat "assume the role"]
     description := "Assigns a specific role or persona"
     category := "Basic" },
   { name := "chain_of_thought"
     keywords := [compilePat "step by step", compilePat "think through", compilePat "reason about",
                  compilePat ("let" ++ apos ++ "s think"), compilePat "work through",
                  compilePat "explain your reasoning"]
     description := "Encourages step-by-step reasoning (CoT)"
     category := "Reasoning" },
   { name := "self_consistency"
     keywords := [compilePat "multiple.*reasoning", compilePat "different.*approaches",
                  compilePat "various.*solutions", compilePat "compare.*answers"]
     description := "Generates multiple reasoning paths"
     category := "Reasoning" },
   { name := "tree_of_thoughts"
     keywords := [compilePat "explore.*options", compilePat "branch.*possibilities",
                  compilePat "different paths", compilePat "evaluate.*alternatives"]
     description := "Explores multiple reasoning branches (ToT)"
     category := "Reasoning" },
   { name := "generate_knowledge"
     keywords := [compilePat "first.*generate.*knowledge", compilePat "what do you know about",
                  compilePat "provide background", compilePat "recall.*information"]
     description := "Generates relevant knowledge before answering"
     category := "Reasoning" },
   { name := "react"
     keywords := [compilePat "thought:", compilePat "action:", compilePat "observation:",
                  compilePat "reason.*then.*act", compilePat "plan.*execute"]
     description := "Reasoning + Acting pattern (ReAct)"
     category := "Agent" },
   { name := "reflexion"
     keywords := [compilePat "reflect on", compilePat "self-reflect", compilePat "evaluate your",
                  compilePat "what went wrong", compilePat "how to improve", compilePat "self-assess",
                  compilePat "analyze.*performance", compilePat "critique.*yourself",
                  compilePat "improve.*reasoning", compilePat "better.*response",
                  compilePat "self-critique", compilePat "critique your answer",
                  compilePat "review and critique",
                  compilePat "identify.*errors", compilePat "logical.*errors"]
     description := "AI self-reflection: AI evaluates its own outputs and performance"
     category := "Agent" },
   { name := "automatic_reasoning"
     keywords := [compilePat "use tools", compilePat "available functions", compilePat "call.*function",
                  compilePat "external tools"]
     description := "Automatic Reasoning and Tool-use (ART)"
     category := "Agent" },
   { name := "rag"
     keywords := [compilePat "based on.*context", compilePat "using.*document", compilePat "retrieve",
                  compilePat "search.*then.*answer", compilePat "given.*information"]
     description := "Retrieval Augmented Generation (RAG)"
     category := "Retrieval" },
   { name := "active_prompt"
     keywords := [compilePat "most uncertain", compilePat "need clarification", compilePat "ask questions",
                  compilePat "what else.*need"]
     description := "Actively seeks clarification"
     category := "Retrieval" },
   { name := "directional_stimulus"
     keywords := [compilePat "focus on", compilePat "emphasize", compilePat "pay attention to",
                  compilePat "highlight", compilePat "prioritize"]
     description := "Guides attention to specific aspects"
     category := "Control" },
   { name := "constraint_setting"
     keywords := [compilePat "must include", compilePat "do not", compilePat "avoid", compilePat "only",
                  compilePat "ensure that", compilePat "specifically", compilePat "focus on",
                  compilePat "focusing on"]
     description := "Sets boundaries or requirements"
     category := "Control" },
   { name := "task_decomposition"
     keywords := [compilePat "review and critique", compilePat "provide.*feedback",
                  compilePat "offer.*suggestions", compilePat "break.*down", compilePat "step by step",
                  compilePat "analyze.*then"]
     description := "Breaks down complex tasks into specific components"
     category := "Control" },
   { name := "output_formatting"
     keywords := [compilePat "format", compilePat "structure", compilePat "provide in",
                  compilePat "output as", compilePat "json", compilePat "table", compilePat "list",
                  compilePat "markdown"]
     description := "Specifies desired output format"
     category := "Control" },
   { name := "meta_prompting"
     keywords := [compilePat "improve.*prompt", compilePat "better.*question", compilePat "rewrite.*query",
                  compilePat "optimize.*instruction"]
     description := "Prompts about prompts"
     category := "Meta" },
   { name := "automatic_prompt_engineer"
     keywords := [compilePat "generate.*prompt", compilePat "create.*instruction",
                  compilePat "design.*template"]
     description := "Automatic Prompt Engineering (APE)"
     category := "Meta" },
   { name := "multimodal_cot"
     keywords := [compilePat "analyze.*image", compilePat "visual.*reasoning", compilePat "describe.*then",
                  compilePat "based on.*picture"]
     description := "Chain-of-Thought with multimodal inputs"
     category := "Multimodal" },
   { name := "task_specification"
     keywords := [compilePat "generate", compilePat "create", compilePat "write", compilePat "analyze",
                  compilePat "review", compilePat "explain", compilePat "summarize"]
     description := "Clearly defines the task"
     category := "Basic" },
   { name := "iterative_refinement"
     keywords := [compilePat "if.*feedback", compilePat "refine", compilePat "enhance", compilePat "iterate",
                  compilePat "improve.*previous"]
     description := "Includes feedback loop instructions"
     category := "Control" },
   { name := "persona_context"
     keywords := [compilePat "known for", compilePat "expert in", compilePat "specialized",
                  compilePat "with experience"]
     description := "Adds context or credentials to the role"
     category := "Basic" },
   { name := "goal_oriented"
     keywords := [compilePat "goal", compilePat "objective", compilePat "aim", compilePat "purpose",
                  compilePat "for maximum", compilePat "to ensure"]
     description := "Defines success criteria"
     category := "Control" },
   { name := "audience_awareness"
     keywords := [compilePat "audience", compilePat "reader", compilePat "for.*users", compilePat "target"]
     description := "Considers the end audience"
     category := "Control" },
   { name := "peer_review"
     keywords := [compilePat "review.*tweet", compilePat "critique.*content", compilePat "feedback.*post",
                  compilePat "analyze.*writing", compilePat "evaluate.*message",
                  compilePat "assess.*communication", compilePat "content.*review",
                  compilePat "writing.*feedback", compilePat "social.*media.*analysis",
                  compilePat "provide.*feedback", compilePat "constructive.*criticism",
                  compilePat "review and critique", compilePat "provide constructive feedback",
                  compilePat "offer specific suggestions", compilePat "make.*compelling",
                  compilePat "enhancing.*depth", compilePat "overall.*impact"]
     description := "Content critique: AI analyzes and evaluates external content"
     category := "Analysis" }]

/-- The full catalog, in source insertion order. -/
def patternCatalog : List PatternInfo := zeroShotInfo :: fewShotInfo :: restPatterns

/-! ### `AdvancedPromptPatternDetector.detect_patterns` -/

/-- The confidence accumulated by the keyword loop: `0.35` per match (`7/20`),
then `min(confidence, 1.0)`. -/
def ruleConfidence (n : Nat) : ℚ := min ((7 : ℚ) / 20 * n) 1

/-- The zero-shot sentinel check: `any(re.search(kw, prompt_lower) for kw in
self.patterns['few_shot']['keywords'])`. -/
def fewShotAny (low : List Char) : Bool :=
  fewShotKeywords.any (fun kw => reSearch kw low)

/-- One evidence snippet: a window of 30 characters before the match start and
30 after the match end, clamped to the prompt's bounds, taken from the
original (case-preserved) prompt, stripped, and wrapped in `...`. -/
def evidenceString (prompt : List Char) (start len : Nat) : String :=
  let a := start - 30
  let b := min prompt.length (start + len + 30)
  "..." ++ String.mk (pyStripList ((prompt.drop a).take (b - a))) ++ "..."

/-- All `(start, length)` spans found for a pattern: for each trigger in order,
the non-overlapping `finditer` matches in the lower-cased prompt. -/
def triggerSpans (kws : List Pat) (low : List Char) : List (Nat × Nat) :=
  kws.flatMap (fun kw => findIter kw low)

/-- The synthetic zero-shot result emitted when no few-shot trigger matches. -/
def zeroShotPM : PatternMatch :=
  { pattern := "zero_shot"
    confidence := 7 / 10
    evidence := ["No clear examples found, suggesting a zero-shot approach."]
    description := zeroShotInfo.description
    category := zeroShotInfo.category }

/-- The body of the `detect_patterns` loop for one catalog entry: the special
zero-shot handling, or the keyword scan emitting a `PatternMatch` when at
least one trigger matched. -/
def detectEntry (low : List Char) (prompt : List Char) (info : PatternInfo) :
    Option (String × PatternMatch) :=
  if info.name = "zero_shot" then
    if fewShotAny low then none
    else some (info.name,
      { pattern := info.name
        confidence := 7 / 10
        evidence := ["No clear examples found, suggesting a zero-shot approach."]
        description := info.description
        category := info.category })
  else
    if (triggerSpans info.keywords low).isEmpty then none
    else some (info.name,
      { pattern := info.name
        confidence := ruleConfidence (triggerSpans info.keywords low).length
        evidence := ((triggerSpans info.keywords low).map
          (fun sp => evidenceString prompt sp.1 sp.2)).take 3
        description := info.description
        category := info.category })

/-- `AdvancedPromptPatternDetector.detect_patterns`: lower-case the prompt
once, walk the catalog in insertion order, and collect at most one
`PatternMatch` per pattern (the Python `detected` dict, as an association list
in insertion order). -/
def detect_patterns (prompt : String) : List (String × PatternMatch) :=
  patternCatalog.filterMap (detectEntry (toLowerList prompt.data) prompt.data)


/-! ### `AdvancedPromptPatternDetector._parse_llm_refinement_response`

The raw LLM reply is a text blob that the source strips of code fences and
feeds to `json.loads`, coercing each entry's fields with defaults.  That
format layer is modelled by the parser's input: `none` stands for a reply on
which decoding raises (`json.JSONDecodeError` / `KeyError` / `ValueError`),
`some items` for a successfully decoded `"patterns"` object, in field order,
with the per-entry defaults (`confidence` 0.0, `evidence` []) already applied
and absent `description` / `category` kept as `Option`. -/

/-- One decoded entry of the LLM response's `"patterns"` object. -/
structure LLMPatternData where
  confidence : ℚ
  evidence : List String
  description : Option String
  category : Option String
deriving DecidableEq, Repr

/-- `pattern_name in self.patterns`. -/
def knownPattern (nm : String) : Bool :=
  patternCatalog.any (fun info => info.name == nm)

/-- `self.patterns[nm]["description"]` (defaults to `""` on an unknown name,
which the guarded call site never exercises). -/
def catalogDescription (nm : String) : String :=
  ((patternCatalog.find? (fun info => info.name == nm)).map (fun info => info.description)).getD ""

/-- `self.patterns[nm]["category"]` (same guard as `catalogDescription`). -/
def catalogCategory (nm : String) : String :=
  ((patternCatalog.find? (fun info => info.name == nm)).map (fun info => info.category)).getD ""

/-- The loop building `refined_patterns`: keep only known pattern names and
convert each surviving entry to a `PatternMatch`. -/
def refinedOf (items : List (String × LLMPatternData)) : List (String × PatternMatch) :=
  items.filterMap (fun it =>
    if knownPattern it.1 then
      some (it.1,
        { pattern := it.1
          confidence := it.2.confidence
          evidence := it.2.evidence
          description := it.2.description.getD (catalogDescription it.1)
          category := it.2.category.getD (catalogCategory it.1) })
    else none)

/-- `_parse_llm_refinement_response`: on decode failure return the rule-based
fallback; otherwise keep known patterns only, and if none survive return the
fallback unchanged. -/
def parse_llm_refinement_response (parsed : Option (List (String × LLMPatternData)))
    (fallback_patterns : List (String × PatternMatch)) : List (String × PatternMatch) :=
  match parsed with
  | none => fallback_patterns
  | some items =>
    let refined_patterns := refinedOf items
    if refined_patterns.isEmpty then fallback_patterns else refined_patterns

/-! ### `HubService` (`app/services/hub_service.py`)

`get_template_content` is modelled on its deterministic path: the LangSmith
branch is the external collaborator (skipped whenever no `LANGSMITH_API_KEY`
is configured, and falling back to the local repository on any failure), and
`TEMPLATE_CACHE` is a write-once memoization of this same computation, so the
cacheless function below is the per-slug value the service returns. -/

/-- `LOCAL_TEMPLATES`, in source insertion order. -/
def LOCAL_TEMPLATES : List (String × String) :=
  [("hwchase17/react-chat",
    "Thought: {thought}\nAction: {action}\nObservation: {observation}\n\n... (repeat until task is solved)\n\nFinal Answer: {final_answer}"),
   ("rlm/rag-prompt",
    "Use the following pieces of context to answer the question at the end.\n\nContext:\n{context}\n\nQuestion: {question}\n\nHelpful Answer:"),
   ("hwchase17/react-json",
    "Thought: {thought}\nAction: {action}\nObservation: {observation}\n\n... (repeat as needed)\n\nFinal Answer: {final_answer}"),
   ("rlm/rag-prompt-cot",
    "Use the following pieces of context to answer the question at the end. Let" ++ apos ++ "s think step by step.\n\nContext:\n{context}\n\nQuestion: {question}\n\nStep by step reasoning:\n1. {step1}\n2. {step2}\n3. {step3}\n\nFinal Answer:"),
   ("langchain-ai/retrieval-qa-chat",
    "You are an AI assistant helping answer questions based on provided context.\n\nContext:\n{context}\n\nQuestion: {question}\n\nPlease provide a helpful and accurate answer based on the context above."),
   ("hwchase17/react",
    "Question: {question}\n\nThought: {thought}\nAction: {action}\nObservation: {observation}\n\nFinal Answer: {answer}"),
   ("chain_of_thought",
    "Let" ++ apos ++ "s solve this step by step:\n\n1. First, understand the problem\n2. Break it down into smaller parts\n3. Work through each part systematically\n4. Combine the results\n\nQuestion: {question}\n\nAnswer: {answer}"),
   ("few_shot",
    "Here are some examples:\n\nExample 1:\nInput: {example1_input}\nOutput: {example1_output}\n\nExample 2:\nInput: {example2_input}\nOutput: {example2_output}\n\nNow solve this:\nInput: {input}\nOutput:"),
   ("role_prompting",
    "You are a {role} with expertise in {domain}.\n\nTask: {task}\n\nInstructions: {instructions}\n\nPlease provide your response:")]

/-- `PATTERN_TO_HUB_MAP`: pattern name → recommended template slugs. -/
def PATTERN_TO_HUB_MAP : List (String × List String) :=
  [("rag", ["rlm/rag-prompt", "langchain-ai/retrieval-qa-chat"]),
   ("react", ["hwchase17/react-chat", "hwchase17/react-json"]),
   ("chain_of_thought", ["rlm/rag-prompt-cot", "chain_of_thought"]),
   ("role_prompting", ["hwchase17/react-chat", "rlm/rag-prompt"])]

/-- The generic fallback body synthesized for unknown template slugs. -/
def genericTemplate (slug : String) : String :=
  "Template: " ++ slug ++ "\n\n{input}\n\n[Template content not available]"

/-- `HubService.get_template_content` (deterministic path, see above): local
repository lookup, then the dead `chain_of_thought` alias branch, then the
substring-similarity scan, then the synthesized generic template. -/
def get_template_content (template_slug : String) : String :=
  match List.lookup template_slug LOCAL_TEMPLATES with
  | some content => content
  | none =>
    if template_slug = "chain_of_thought" then
      (List.lookup "chain_of_thought" LOCAL_TEMPLATES).getD ""
    else
      match LOCAL_TEMPLATES.find? (fun kv =>
          isSubstr template_slug.data kv.1.data || isSubstr kv.1.data template_slug.data) with
      | some kv => kv.2
      | none => genericTemplate template_slug

/-- Model of `re.findall(r"\x7b([^\x7d]+)\x7d", content)`: every non-overlapping
occurrence of a brace-delimited, nonempty, right-brace-free chunk, in scan
order (captures only). -/
def extractVarsAux : Nat → List Char → List String
  | 0, _ => []
  | _ + 1, [] => []
  | fuel + 1, c :: rest =>
    if c = lbraceChar then
      let inner := rest.takeWhile (fun d => d != rbraceChar)
      if 0 < inner.length ∧ inner.length < rest.length then
        String.mk inner :: extractVarsAux fuel (rest.drop (inner.length + 1))
      else
        extractVarsAux fuel rest
    else
      extractVarsAux fuel rest

/-- `extractVarsAux` with enough fuel: every step consumes at least one
character, so `cs.length` steps always complete the scan. -/
def extractVars (cs : List Char) : List String :=
  extractVarsAux cs.length cs

/-- The result shape of `HubService.get_template_with_metadata`. -/
structure TemplateInfo where
  content : String
  vars : List String
  slug : String
  variable_count : Nat
deriving DecidableEq, Repr

/-- `HubService.get_template_with_metadata`: resolve the body, then extract
the set of `{variable}` names (Python's `set(...)` de-duplication, here in
first-occurrence order), defaulting to `["input"]` when none are found. -/
def get_template_with_metadata (template_slug : String) : TemplateInfo :=
  let content := get_template_content template_slug
  if content = "" then
    { content := genericTemplate template_slug
      vars := ["input"]
      slug := template_slug
      variable_count := 1 }
  else
    let vs := (extractVars content.data).dedup
    { content := content
      vars := if vs.isEmpty then ["input"] else vs
      slug := template_slug
      variable_count := if vs.isEmpty then 1 else vs.length }

/-! ### `HubService.get_suggestions` -/

/-- Round-half-to-even to an integer, the rounding Python's `round` uses. -/
def roundHalfEven (q : ℚ) : ℤ :=
  let n := ⌊q⌋
  let r := q - n
  if r < 1 / 2 then n
  else if 1 / 2 < r then n + 1
  else if n % 2 = 0 then n else n + 1

/-- Model of Python `round(x, 2)` at rational precision. -/
def pyRound2 (q : ℚ) : ℚ := (roundHalfEven (q * 100) : ℚ) / 100

/-- One ranked suggestion (`{"name": slug, "score": score}`). -/
structure Suggestion where
  name : String
  score : ℚ
deriving DecidableEq, Repr

/-- The template slugs mapped from some pattern's affinity entry (`[]` for
patterns absent from `PATTERN_TO_HUB_MAP`). -/
def affinityOf (pattern_name : String) : List String :=
  (List.lookup pattern_name PATTERN_TO_HUB_MAP).getD []

/-- `suggested_slugs`: the union over detected patterns of their affinity
entries (Python builds a `set`; modelled in first-occurrence order). -/
def candidateSlugs (detected : List (String × PatternMatch)) : List String :=
  (detected.flatMap (fun p => affinityOf p.1)).dedup

/-- `total_confidence`: the sum over ALL detected patterns. -/
def totalConfidence (detected : List (String × PatternMatch)) : ℚ :=
  (detected.map (fun p => p.2.confidence)).sum

/-- `matched_confidence` for one slug: the sum over detected patterns whose
affinity entry contains the slug. -/
def matchedConfidence (detected : List (String × PatternMatch)) (slug : String) : ℚ :=
  ((detected.filter (fun p => slug ∈ affinityOf p.1)).map (fun p => p.2.confidence)).sum

/-- `score = round(matched_confidence / total_confidence * 100, 2)`. -/
def suggestionScore (detected : List (String × PatternMatch)) (slug : String) : ℚ :=
  pyRound2 (matchedConfidence detected slug / totalConfidence detected * 100)

/-- The descending-by-score order used for the final sort. -/
def suggGE (a b : Suggestion) : Prop := b.score ≤ a.score

instance : DecidableRel suggGE := fun a b => inferInstanceAs (Decidable (b.score ≤ a.score))

instance : IsTotal Suggestion suggGE := ⟨fun a b => le_total b.score a.score⟩

instance : IsTrans Suggestion suggGE := ⟨fun _ _ _ h1 h2 => le_trans h2 h1⟩

/-- `HubService.get_suggestions`: empty input or zero total confidence give
`[]`; otherwise one scored suggestion per candidate slug, sorted by score
descending (Python's stable `list.sort(reverse=True)`, modelled by a stable
insertion sort). -/
def get_suggestions (detected : List (String × PatternMatch)) : List Suggestion :=
  if detected.isEmpty then []
  else if totalConfidence detected = 0 then []
  else
    List.insertionSort suggGE
      ((candidateSlugs detected).map (fun slug =>
        { name := slug, score := suggestionScore detected slug }))


/-! ### `HubService.merge_template_with_prompt` -/

/-- `"\x7b" + var + "\x7d"`: the placeholder for a variable name. -/
def braced (var : String) : List Char :=
  lbraceChar :: var.data ++ [rbraceChar]

/-- The per-variable heuristic of the fallback loop: instruction-like names
get the first 100 characters of the prompt, answer-like names a fixed
placeholder, anything else a generic `[Content for <name>]` placeholder. -/
def heuristicFill (up : List Char) (var : String) : List Char :=
  let lv := toLowerList var.data
  if lv = "instruction".data ∨ lv = "task".data ∨ lv = "query".data then
    up.take 100
  else if lv = "answer".data ∨ lv = "response".data ∨ lv = "output".data then
    "[Answer will be generated based on the above]".data
  else
    "[Content for ".data ++ var.data ++ "]".data

/-- The placeholder strings tested by the three fixed substitutions. -/
def questionVar : List Char := "{question}".data

/-- `"\x7binput\x7d"`. -/
def inputVar : List Char := "{input}".data

/-- `"\x7bcontext\x7d"`. -/
def contextVar : List Char := "{context}".data

/-- The deterministic fallback of `merge_template_with_prompt` (lines 352-377):
the three fixed substitutions in order — `{question}` (only when the prompt
exceeds 10 characters; truncated to 200 characters plus an ellipsis when
longer), `{input}` (always, with the full prompt), `{context}` (only when the
prompt exceeds 50 characters) — each gated on the placeholder occurring in the
ORIGINAL template text, followed by the heuristic pass over the first 3
variables whose placeholders are still present. -/
def fallbackMerge (template_content : String) (vars : List String) (user_prompt : String) : String :=
  let tc := template_content.data
  let up := user_prompt.data
  let m1 := if isSubstr questionVar tc ∧ up.length > 10 then
      listReplace questionVar (if up.length > 200 then up.take 200 ++ "...".data else up) tc
    else tc
  let m2 := if isSubstr inputVar tc then listReplace inputVar up m1 else m1
  let m3 := if isSubstr contextVar tc ∧ up.length > 50 then listReplace contextVar up m2 else m2
  let remaining := (vars.filter (fun v => isSubstr (braced v) m3)).take 3
  String.mk (remaining.foldl (fun acc v =>
    if isSubstr (braced v) acc then listReplace (braced v) (heuristicFill up v) acc else acc) m3)

/-- The fallback as claim C5 words it (no length guard on the `{question}`
substitution); written from the claim's text, for comparison with
`fallbackMerge`. -/
def fallbackMergeClaimed (template_content : String) (vars : List String) (user_prompt : String) :
    String :=
  let tc := template_content.data
  let up := user_prompt.data
  let m1 := if isSubstr questionVar tc then
      listReplace questionVar (if up.length > 200 then up.take 200 ++ "...".data else up) tc
    else tc
  let m2 := if isSubstr inputVar tc then listReplace inputVar up m1 else m1
  let m3 := if isSubstr contextVar tc ∧ up.length > 50 then listReplace contextVar up m2 else m2
  let remaining := (vars.filter (fun v => isSubstr (braced v) m3)).take 3
  String.mk (remaining.foldl (fun acc v =>
    if isSubstr (braced v) acc then listReplace (braced v) (heuristicFill up v) acc else acc) m3)

/-- The fallback as the amended claim words it: identical to the claim's
description except that `{question}` is substituted only when the user prompt
is longer than 10 characters. -/
def fallbackMergeAmendedSpec (template_content : String) (vars : List String) (user_prompt : String) :
    String :=
  let tc := template_content.data
  let up := user_prompt.data
  let m1 := if isSubstr questionVar tc ∧ up.length > 10 then
      listReplace questionVar (if up.length > 200 then up.take 200 ++ "...".data else up) tc
    else tc
  let m2 := if isSubstr inputVar tc then listReplace inputVar up m1 else m1
  let m3 := if isSubstr contextVar tc ∧ up.length > 50 then listReplace contextVar up m2 else m2
  let remaining := (vars.filter (fun v => isSubstr (braced v) m3)).take 3
  String.mk (remaining.foldl (fun acc v =>
    if isSubstr (braced v) acc then listReplace (braced v) (heuristicFill up v) acc else acc) m3)

/-- `HubService.merge_template_with_prompt`.  `llm_response` is the external
LLM collaborator's merged-template output: `none` models an exception or an
empty/absent structured field, `some resp` a returned text.  The LLM path is
attempted only for a non-default provider or a nonempty API key; its output is
accepted only when, after stripping, it is longer than 10 characters and
mentions at least one variable name; every other outcome falls through to the
deterministic fallback.  The function's outer `try` returns the user prompt on
any exception; in this pure model the only modelled exception source (the LLM
call) is already caught by the inner handler. -/
def merge_template_with_prompt (llm_response : Option String) (user_prompt : String)
    (template_slug : String) (provider : String) (api_key : String) : String :=
  let template_info := get_template_with_metadata template_slug
  let template_content := template_info.content
  let vars := template_info.vars
  if template_content = "" ∨ vars = [] then user_prompt
  else
    let llm_out : Option String :=
      if provider ≠ "ollama" ∨ api_key ≠ "" then
        match llm_response with
        | some resp =>
          let merged_content := pyStrip resp
          if merged_content.data.length > 10 ∧
              vars.any (fun v => isSubstr v.data merged_content.data) then
            some merged_content
          else none
        | none => none
      else none
    match llm_out with
    | some merged_content => merged_content
    | none => fallbackMerge template_content vars user_prompt


/-! ### Helper lemmas -/

/-- Any pair emitted by `detectEntry` is keyed by the catalog entry's name. -/
lemma detectEntry_fst {low prompt : List Char} {info : PatternInfo} {pr : String × PatternMatch}
    (h : detectEntry low prompt info = some pr) : pr.1 = info.name := by
  unfold detectEntry at h
  split at h
  · split at h
    · exact Option.noConfusion h
    · cases h; rfl
  · split at h
    · exact Option.noConfusion h
    · cases h; rfl

/-- If no entry of `l` carries the key `k`, the detection pass over `l` has no
entry for `k`. -/
lemma lookup_filterMap_detect_none {low prompt : List Char} {k : String}
    (l : List PatternInfo)
    (h : ∀ info ∈ l, info.name = k → detectEntry low prompt info = none) :
    List.lookup k (l.filterMap (detectEntry low prompt)) = none := by
  induction l with
  | nil => rfl
  | cons a l ih =>
    rw [List.filterMap_cons]
    cases ha : detectEntry low prompt a with
    | none => exact ih (fun i hi hn => h i (List.mem_cons_of_mem _ hi) hn)
    | some pr =>
      obtain ⟨k', pm⟩ := pr
      have hfst : k' = a.name := detectEntry_fst ha
      have hne : ¬ (k = k') := by
        intro hk
        have := h a (List.mem_cons_self a l) (by rw [← hfst, ← hk])
        rw [this] at ha
        exact Option.noConfusion ha
      have hbeq : (k == k') = false := beq_eq_false_iff_ne.mpr hne
      simp only [List.lookup, hbeq]
      exact ih (fun i hi hn => h i (List.mem_cons_of_mem _ hi) hn)

/-- A successful `re.search` guarantees at least one `finditer` match. -/
lemma findIter_ne_nil_of_reSearch {pat : Pat} {cs : List Char}
    (h : reSearch pat cs = true) : findIter pat cs ≠ [] := by
  unfold reSearch at h
  obtain ⟨⟨s, l⟩, hsl⟩ := Option.isSome_iff_exists.mp h
  unfold findIter findIterAux
  rw [hsl]
  exact List.cons_ne_nil _ _

/-- `ruleConfidence` is nonnegative. -/
lemma ruleConfidence_nonneg (n : Nat) : 0 ≤ ruleConfidence n :=
  le_min (by positivity) zero_le_one

/-- `ruleConfidence` is at most 1. -/
lemma ruleConfidence_le_one (n : Nat) : ruleConfidence n ≤ 1 :=
  min_le_right _ _

/-- `ruleConfidence` is at least `0.35` once there is a match. -/
lemma ruleConfidence_ge_of_pos {n : Nat} (h : 1 ≤ n) : 7 / 20 ≤ ruleConfidence n := by
  apply le_min
  · calc (7 : ℚ) / 20 = 7 / 20 * (1 : Nat) := by norm_num
    _ ≤ 7 / 20 * n := by
        apply mul_le_mul_of_nonneg_left _ (by norm_num)
        exact_mod_cast h
  · norm_num

/-- `ruleConfidence` is monotone in the number of matches. -/
lemma ruleConfidence_mono {m n : Nat} (h : m ≤ n) : ruleConfidence m ≤ ruleConfidence n := by
  apply min_le_min _ le_rfl
  apply mul_le_mul_of_nonneg_left _ (by norm_num)
  exact_mod_cast h

/-- Every confidence the rule-based detector emits lies in `[0, 1]`. -/
lemma detect_confidence_bounds {p : String} {nm : String} {pm : PatternMatch}
    (hmem : (nm, pm) ∈ detect_patterns p) : 0 ≤ pm.confidence ∧ pm.confidence ≤ 1 := by
  rw [detect_patterns] at hmem
  obtain ⟨info, _, heq⟩ := List.mem_filterMap.mp hmem
  unfold detectEntry at heq
  split at heq
  · split at heq
    · exact Option.noConfusion heq
    · cases heq
      constructor <;> norm_num
  · split at heq
    · exact Option.noConfusion heq
    · cases heq
      exact ⟨ruleConfidence_nonneg _, ruleConfidence_le_one _⟩

/-! ### Claim theorems -/

/-- Claim C1: for every prompt, the zero-shot sentinel is evaluated specially.
If no `few_shot` trigger matches anywhere in the lower-cased prompt, the
detection result contains `zero_shot` with confidence exactly `0.7` and the
single synthetic evidence string; if any `few_shot` trigger matches,
`zero_shot` is absent from the result. -/
theorem C1_zero_shot_sentinel (p : String) :
    (fewShotAny (toLowerList p.data) = false →
      List.lookup "zero_shot" (detect_patterns p) = some zeroShotPM) ∧
    (fewShotAny (toLowerList p.data) = true →
      List.lookup "zero_shot" (detect_patterns p) = none) ∧
    zeroShotPM.confidence = 7 / 10 ∧
    zeroShotPM.evidence = ["No clear examples found, suggesting a zero-shot approach."] := by
  refine ⟨?_, ?_, rfl, rfl⟩
  · intro h
    have hz : detectEntry (toLowerList p.data) p.data zeroShotInfo =
        some ("zero_shot", zeroShotPM) := by
      unfold detectEntry
      rw [if_pos (show zeroShotInfo.name = "zero_shot" from rfl),
        if_neg (show ¬ fewShotAny (toLowerList p.data) = true by rw [h]; exact Bool.false_ne_true)]
      rfl
    rw [detect_patterns, patternCatalog, List.filterMap_cons, hz]
    simp [List.lookup]
  · intro h
    rw [detect_patterns]
    apply lookup_filterMap_detect_none
    intro info _ hname
    unfold detectEntry
    rw [if_pos hname, if_pos h]

/-- Witness for C1 at concrete prompts: the empty prompt has no few-shot
trigger and yields the sentinel; the prompt `"for instance"` trips a few-shot
trigger and has no `zero_shot` entry. -/
theorem C1_zero_shot_sentinel_witness :
    List.lookup "zero_shot" (detect_patterns "") = some zeroShotPM ∧
    List.lookup "zero_shot" (detect_patterns "for instance") = none :=
  ⟨(C1_zero_shot_sentinel "").1 (by decide),
   (C1_zero_shot_sentinel "for instance").2.1 (by decide)⟩

/-- Claim C2: for every prompt and every non-zero-shot pattern emitted by
`detect_patterns`, the confidence equals `0.35` (`7/20`) times the total
number of non-overlapping trigger matches across the pattern's triggers,
capped at `1.0` by a simple clamp; every detected confidence lies in `[0,1]`;
and the clamped value is monotonically non-decreasing in the match count. -/
theorem C2_confidence_accumulation :
    (∀ (p : String) (nm : String) (pm : PatternMatch),
      (nm, pm) ∈ detect_patterns p → nm ≠ "zero_shot" →
      ∃ info ∈ patternCatalog, info.name = nm ∧
        pm.confidence = ruleConfidence (triggerSpans info.keywords (toLowerList p.data)).length) ∧
    (∀ n : Nat, ruleConfidence n = min ((7 : ℚ) / 20 * n) 1) ∧
    (∀ (p : String) (nm : String) (pm : PatternMatch),
      (nm, pm) ∈ detect_patterns p → 0 ≤ pm.confidence ∧ pm.confidence ≤ 1) ∧
    (∀ m n : Nat, m ≤ n → ruleConfidence m ≤ ruleConfidence n) := by
  refine ⟨?_, fun _ => rfl, fun _ _ _ h => detect_confidence_bounds h, fun _ _ h => ruleConfidence_mono h⟩
  intro p nm pm hmem hnm
  rw [detect_patterns] at hmem
  obtain ⟨info, hinfo, heq⟩ := List.mem_filterMap.mp hmem
  refine ⟨info, hinfo, ?_⟩
  unfold detectEntry at heq
  split at heq
  · split at heq
    · exact Option.noConfusion heq
    · cases heq
      rename_i hname _
      exact absurd hname hnm
  · split at heq
    · exact Option.noConfusion heq
    · cases heq
      exact ⟨rfl, rfl⟩

/-- Witness for C2 at the concrete prompt `"act as"`: the single
`role_prompting` trigger match yields confidence `ruleConfidence 1` (= 0.35). -/
theorem C2_confidence_accumulation_witness :
    ∃ info ∈ patternCatalog, info.name = "role_prompting" ∧
      ({ pattern := "role_prompting"
         confidence := ruleConfidence 1
         evidence := ["...act as..."]
         description := "Assigns a specific role or persona"
         category := "Basic" } : PatternMatch).confidence =
        ruleConfidence (triggerSpans info.keywords (toLowerList "act as".data)).length := by
  have h : detect_patterns "act as" =
      [("zero_shot", zeroShotPM),
       ("role_prompting",
        { pattern := "role_prompting"
          confidence := ruleConfidence 1
          evidence := ["...act as..."]
          description := "Assigns a specific role or persona"
          category := "Basic" })] := rfl
  refine C2_confidence_accumulation.1 "act as" "role_prompting" _ ?_ (by decide)
  rw [h]
  exact List.mem_cons_of_mem _ (List.mem_cons_self _ _)

/-- Counterexample to claim C7: the empty prompt does NOT yield an empty
detection result — no few-shot trigger matches the empty string, so the
zero-shot sentinel is emitted. -/
theorem C7_empty_prompt_counterexample : detect_patterns "" ≠ [] := by
  have h : detect_patterns "" = [("zero_shot", zeroShotPM)] := rfl
  rw [h]
  exact List.cons_ne_nil _ _

/-- Claim C7 as amended: `detect_patterns` is a total function (it raises no
error on any input), and on the empty prompt it returns exactly the singleton
zero-shot sentinel result — a non-empty `DetectionResult` — rather than an
empty one. -/
theorem C7_empty_prompt_amended :
    detect_patterns "" = [("zero_shot", zeroShotPM)] ∧ detect_patterns "" ≠ [] := by
  constructor
  · rfl
  · have h : detect_patterns "" = [("zero_shot", zeroShotPM)] := rfl
    rw [h]
    exact List.cons_ne_nil _ _

/-- Claim C10: for every prompt (including the empty string) the detection
result is non-empty: when no few-shot trigger matches, the zero-shot sentinel
is present; when one does, `few_shot` itself is present with at least one
trigger match (confidence at least `0.35`). -/
theorem C10_result_never_empty (p : String) :
    (fewShotAny (toLowerList p.data) = false → ("zero_shot", zeroShotPM) ∈ detect_patterns p) ∧
    (fewShotAny (toLowerList p.data) = true →
      ∃ pm, ("few_shot", pm) ∈ detect_patterns p ∧ 7 / 20 ≤ pm.confidence) ∧
    detect_patterns p ≠ [] := by
  have hzs : fewShotAny (toLowerList p.data) = false →
      ("zero_shot", zeroShotPM) ∈ detect_patterns p := by
    intro h
    have hz : detectEntry (toLowerList p.data) p.data zeroShotInfo =
        some ("zero_shot", zeroShotPM) := by
      unfold detectEntry
      rw [if_pos (show zeroShotInfo.name = "zero_shot" from rfl),
        if_neg (show ¬ fewShotAny (toLowerList p.data) = true by rw [h]; exact Bool.false_ne_true)]
      rfl
    rw [detect_patterns, patternCatalog, List.filterMap_cons, hz]
    exact List.mem_cons_self _ _
  have hfs : fewShotAny (toLowerList p.data) = true →
      ∃ pm, ("few_shot", pm) ∈ detect_patterns p ∧ 7 / 20 ≤ pm.confidence := by
    intro h
    obtain ⟨kw, hkw, hsearch⟩ := List.any_eq_true.mp h
    have hiter : findIter kw (toLowerList p.data) ≠ [] := findIter_ne_nil_of_reSearch hsearch
    obtain ⟨sp, hsp⟩ := List.exists_mem_of_ne_nil _ hiter
    have hspans : triggerSpans fewShotKeywords (toLowerList p.data) ≠ [] :=
      List.ne_nil_of_mem (List.mem_flatMap.mpr ⟨kw, hkw, hsp⟩)
    have hlen : 1 ≤ (triggerSpans fewShotKeywords (toLowerList p.data)).length :=
      List.length_pos.mpr hspans
    have hempty : (triggerSpans fewShotKeywords (toLowerList p.data)).isEmpty = false := by
      cases hc : triggerSpans fewShotKeywords (toLowerList p.data) with
      | nil => exact absurd hc hspans
      | cons a t => rfl
    have hcat : fewShotInfo ∈ patternCatalog := by
      rw [patternCatalog]
      exact List.mem_cons_of_mem _ (List.mem_cons_self _ _)
    have hentry : detectEntry (toLowerList p.data) p.data fewShotInfo =
        some ("few_shot",
          { pattern := "few_shot"
            confidence :=
              ruleConfidence (triggerSpans fewShotKeywords (toLowerList p.data)).length
            evidence := ((triggerSpans fewShotKeywords (toLowerList p.data)).map
              (fun sp => evidenceString p.data sp.1 sp.2)).take 3
            description := fewShotInfo.description
            category := fewShotInfo.category }) := by
      unfold detectEntry
      rw [if_neg (show ¬ fewShotInfo.name = "zero_shot" by decide),
        if_neg (show ¬ (triggerSpans fewShotInfo.keywords (toLowerList p.data)).isEmpty = true by
          rw [show fewShotInfo.keywords = fewShotKeywords from rfl, hempty]
          exact Bool.false_ne_true)]
      rfl
    exact ⟨_, List.mem_filterMap.mpr ⟨fewShotInfo, hcat, hentry⟩, ruleConfidence_ge_of_pos hlen⟩
  refine ⟨hzs, hfs, ?_⟩
  cases h : fewShotAny (toLowerList p.data) with
  | false => exact List.ne_nil_of_mem (hzs h)
  | true =>
    obtain ⟨pm, hpm, _⟩ := hfs h
    exact List.ne_nil_of_mem hpm

/-- Witness for C10 at concrete prompts: the empty prompt (no few-shot
trigger) carries the sentinel, and `"for instance"` (a few-shot trigger)
carries `few_shot`. -/
theorem C10_result_never_empty_witness :
    ("zero_shot", zeroShotPM) ∈ detect_patterns "" ∧
    (∃ pm, ("few_shot", pm) ∈ detect_patterns "for instance" ∧ 7 / 20 ≤ pm.confidence) ∧
    detect_patterns "" ≠ [] :=
  ⟨(C10_result_never_empty "").1 (by decide),
   (C10_result_never_empty "for instance").2.1 (by decide),
   (C10_result_never_empty "").2.2⟩

/-- Claim C3: `get_suggestions` returns `[]` on an empty result or when the
total confidence is zero (the division is never reached with a zero divisor);
otherwise it returns one suggestion per candidate slug of the affinity map,
scored `round(matchedConfidence / totalConfidence * 100, 2)`, ordered by
score descending. -/
theorem C3_suggestion_scoring (detected : List (String × PatternMatch)) :
    (detected = [] → get_suggestions detected = []) ∧
    (totalConfidence detected = 0 → get_suggestions detected = []) ∧
    (detected ≠ [] → totalConfidence detected ≠ 0 →
      ((get_suggestions detected).map Suggestion.name).Perm (candidateSlugs detected) ∧
      (∀ s ∈ get_suggestions detected,
        s.score = pyRound2 (matchedConfidence detected s.name / totalConfidence detected * 100)) ∧
      (get_suggestions detected).Sorted suggGE) := by
  refine ⟨?_, ?_, ?_⟩
  · intro h
    rw [h]
    rfl
  · intro h
    unfold get_suggestions
    rw [if_pos h]
    split <;> rfl
  · intro hne hnz
    have hempty : detected.isEmpty = false := by
      cases detected with
      | nil => exact absurd rfl hne
      | cons a t => rfl
    have hgs : get_suggestions detected =
        List.insertionSort suggGE
          ((candidateSlugs detected).map (fun slug =>
            { name := slug, score := suggestionScore detected slug })) := by
      unfold get_suggestions
      rw [if_neg (by rw [hempty]; exact Bool.false_ne_true), if_neg hnz]
    refine ⟨?_, ?_, ?_⟩
    · rw [hgs]
      have hperm := (List.perm_insertionSort suggGE
        ((candidateSlugs detected).map (fun slug =>
          ({ name := slug, score := suggestionScore detected slug } : Suggestion)))).map
          Suggestion.name
      refine hperm.trans ?_
      rw [List.map_map]
      have hid : (Suggestion.name ∘ fun slug =>
          ({ name := slug, score := suggestionScore detected slug } : Suggestion)) = id := rfl
      rw [hid, List.map_id]
    · intro s hs
      rw [hgs] at hs
      have hs' := (List.perm_insertionSort suggGE _).mem_iff.mp hs
      obtain ⟨slug, _, hslug⟩ := List.mem_map.mp hs'
      rw [← hslug]
      rfl
    · rw [hgs]
      exact List.sorted_insertionSort suggGE _

/-- A one-pattern detection result (`rag` at confidence 0.8), used as the
concrete input of C3's witness. -/
def ragOnlyDetected : List (String × PatternMatch) :=
  [("rag",
    { pattern := "rag"
      confidence := 4 / 5
      evidence := []
      description := "Retrieval Augmented Generation (RAG)"
      category := "Retrieval" })]

/-- Witness for C3 on `ragOnlyDetected`: its candidate templates are each
scored and the output is sorted. -/
theorem C3_suggestion_scoring_witness :
    ((get_suggestions ragOnlyDetected).map Suggestion.name).Perm
      (candidateSlugs ragOnlyDetected) ∧
    (get_suggestions ragOnlyDetected).Sorted suggGE := by
  have h := (C3_suggestion_scoring ragOnlyDetected).2.2
    (by rw [ragOnlyDetected]; exact List.cons_ne_nil _ _)
    (by show totalConfidence ragOnlyDetected ≠ 0
        show ((4 : ℚ) / 5 + 0) ≠ 0
        norm_num)
  exact ⟨h.1, h.2.2⟩

set_option maxRecDepth 16384 in
/-- Counterexample to claim C4: an LLM-path failure (the collaborator raises,
modelled by `llm_response = none`) does NOT return the original user prompt —
it degrades to the deterministic fallback, which here fills the RAG template's
variables. -/
theorem C4_merge_counterexample :
    merge_template_with_prompt none "hello" "rlm/rag-prompt" "groq" "k" ≠ "hello" := by
  decide

/-- Claim C4 as amended: `merge_template_with_prompt` never fails outward (it
is a total function), and each call returns either the original user prompt
(template resolution yielding no body or variables, or the outer exception
handler), the deterministic fallback (any LLM-path exception or validation
failure), or the validated, stripped LLM output. -/
theorem C4_merge_never_fails (llm_response : Option String)
    (user_prompt template_slug provider api_key : String) :
    merge_template_with_prompt llm_response user_prompt template_slug provider api_key =
        user_prompt ∨
    merge_template_with_prompt llm_response user_prompt template_slug provider api_key =
        fallbackMerge (get_template_with_metadata template_slug).content
          (get_template_with_metadata template_slug).vars user_prompt ∨
    (∃ resp, llm_response = some resp ∧
      merge_template_with_prompt llm_response user_prompt template_slug provider api_key =
        pyStrip resp) := by
  unfold merge_template_with_prompt
  simp only []
  by_cases h1 : (get_template_with_metadata template_slug).content = "" ∨
      (get_template_with_metadata template_slug).vars = []
  · rw [if_pos h1]
    exact Or.inl rfl
  · rw [if_neg h1]
    by_cases h2 : provider ≠ "ollama" ∨ api_key ≠ ""
    · rw [if_pos h2]
      cases llm_response with
      | none => exact Or.inr (Or.inl rfl)
      | some resp =>
        by_cases h3 : (pyStrip resp).data.length > 10 ∧
            (get_template_with_metadata template_slug).vars.any
              (fun v => isSubstr v.data (pyStrip resp).data)
        · rw [show ((match some resp with
              | some r =>
                if (pyStrip r).data.length > 10 ∧
                    (get_template_with_metadata template_slug).vars.any
                      (fun v => isSubstr v.data (pyStrip r).data) then
                  some (pyStrip r)
                else none
              | none => none) : Option String) =
              if (pyStrip resp).data.length > 10 ∧
                  (get_template_with_metadata template_slug).vars.any
                    (fun v => isSubstr v.data (pyStrip resp).data) then
                some (pyStrip resp)
              else none from rfl, if_pos h3]
          exact Or.inr (Or.inr ⟨resp, rfl, rfl⟩)
        · rw [show ((match some resp with
              | some r =>
                if (pyStrip r).data.length > 10 ∧
                    (get_template_with_metadata template_slug).vars.any
                      (fun v => isSubstr v.data (pyStrip r).data) then
                  some (pyStrip r)
                else none
              | none => none) : Option String) =
              if (pyStrip resp).data.length > 10 ∧
                  (get_template_with_metadata template_slug).vars.any
                    (fun v => isSubstr v.data (pyStrip resp).data) then
                some (pyStrip resp)
              else none from rfl, if_neg h3]
          exact Or.inr (Or.inl rfl)
    · rw [if_neg h2]
      exact Or.inr (Or.inl rfl)

set_option maxRecDepth 16384 in
/-- Counterexample to claim C5: on the 2-character prompt `"hi"` (not longer
than 10 characters) the code leaves `\x7bquestion\x7d` to the heuristic pass — the
claim's guard-free description would substitute the prompt itself, and the two
disagree on the RAG template. -/
theorem C5_fallback_counterexample :
    fallbackMerge (get_template_with_metadata "rlm/rag-prompt").content
        ["context", "question"] "hi" ≠
      fallbackMergeClaimed (get_template_with_metadata "rlm/rag-prompt").content
        ["context", "question"] "hi" := by
  decide

/-- Claim C5 as amended: the deterministic fallback behaves exactly as the
claim describes with one correction — `\x7bquestion\x7d` is substituted only when
the user prompt is longer than 10 characters (shorter prompts leave it to the
heuristic pass). -/
theorem C5_fallback_amended (template_content : String) (vars : List String)
    (user_prompt : String) :
    fallbackMerge template_content vars user_prompt =
      fallbackMergeAmendedSpec template_content vars user_prompt := rfl

/-- Claim C6: the refinement parser drops unknown pattern names silently (each
output entry either carries a catalog name or the whole result is the
untouched fallback), and on a decode failure or an empty surviving set it
returns the original rule-based result unchanged. -/
theorem C6_refinement_bridge (fallback_patterns : List (String × PatternMatch)) :
    parse_llm_refinement_response none fallback_patterns = fallback_patterns ∧
    (∀ items : List (String × LLMPatternData),
      (refinedOf items = [] →
        parse_llm_refinement_response (some items) fallback_patterns = fallback_patterns) ∧
      (∀ nm pm, (nm, pm) ∈ parse_llm_refinement_response (some items) fallback_patterns →
        knownPattern nm = true ∨ (nm, pm) ∈ fallback_patterns)) := by
  refine ⟨rfl, fun items => ⟨?_, ?_⟩⟩
  · intro h
    show (if (refinedOf items).isEmpty = true then fallback_patterns else refinedOf items) =
      fallback_patterns
    rw [h]
    rfl
  · intro nm pm hmem
    have hmem' : (nm, pm) ∈
        (if (refinedOf items).isEmpty = true then fallback_patterns else refinedOf items) := hmem
    split at hmem'
    · exact Or.inr hmem'
    · unfold refinedOf at hmem'
      obtain ⟨it, _, hit⟩ := List.mem_filterMap.mp hmem'
      left
      by_cases hk : knownPattern it.1 = true
      · rw [if_pos hk] at hit
        cases hit
        exact hk
      · rw [if_neg hk] at hit
        exact Option.noConfusion hit

/-- Witness for C6: a response whose only pattern name is unknown leaves a
one-entry rule-based result untouched. -/
theorem C6_refinement_bridge_witness :
    parse_llm_refinement_response
        (some [("bogus_pattern", { confidence := 1, evidence := [], description := none,
                                   category := none })])
        [("zero_shot", zeroShotPM)] =
      [("zero_shot", zeroShotPM)] :=
  ((C6_refinement_bridge [("zero_shot", zeroShotPM)]).2
    [("bogus_pattern", { confidence := 1, evidence := [], description := none,
                         category := none })]).1 rfl

/-- Counterexample to claim C8: the refinement parse path constructs a
`PatternMatch` whose confidence (here `5.0`, copied from the response) exceeds
1 — no clamping to `[0,1]` happens on that path. -/
theorem C8_clamp_counterexample :
    ∃ pm, ("few_shot", pm) ∈ parse_llm_refinement_response
        (some [("few_shot", { confidence := 5, evidence := [], description := none,
                              category := none })]) [] ∧
      1 < pm.confidence := by
  refine ⟨{ pattern := "few_shot"
            confidence := 5
            evidence := []
            description := catalogDescription "few_shot"
            category := catalogCategory "few_shot" }, ?_, by norm_num⟩
  have h : parse_llm_refinement_response
      (some [("few_shot", { confidence := 5, evidence := [], description := none,
                            category := none })]) [] =
      [("few_shot",
        { pattern := "few_shot"
          confidence := 5
          evidence := []
          description := catalogDescription "few_shot"
          category := catalogCategory "few_shot" })] := rfl
  rw [h]
  exact List.mem_cons_self _ _

/-- Claim C8 as amended: every `PatternMatch` produced by rule-based detection
has its confidence in `[0,1]`; the refinement parse path instead passes the
response's confidence through unclamped (each parsed entry's confidence equals
the decoded value verbatim). -/
theorem C8_confidence_invariant :
    (∀ (p : String) (nm : String) (pm : PatternMatch),
      (nm, pm) ∈ detect_patterns p → 0 ≤ pm.confidence ∧ pm.confidence ≤ 1) ∧
    (∀ (items : List (String × LLMPatternData)) (nm : String) (pm : PatternMatch),
      (nm, pm) ∈ refinedOf items → ∃ d, (nm, d) ∈ items ∧ pm.confidence = d.confidence) := by
  refine ⟨fun _ _ _ h => detect_confidence_bounds h, ?_⟩
  intro items nm pm hmem
  unfold refinedOf at hmem
  obtain ⟨it, hit, heq⟩ := List.mem_filterMap.mp hmem
  by_cases hk : knownPattern it.1 = true
  · rw [if_pos hk] at heq
    cases heq
    exact ⟨it.2, by rw [show ((it.1, it.2) : String × LLMPatternData) = it from rfl]; exact hit, rfl⟩
  · rw [if_neg hk] at heq
    exact Option.noConfusion heq

/-- Witness for C8 at the concrete empty prompt: the zero-shot sentinel's
confidence (0.7) is within `[0,1]`. -/
theorem C8_confidence_invariant_witness :
    0 ≤ zeroShotPM.confidence ∧ zeroShotPM.confidence ≤ 1 :=
  C8_confidence_invariant.1 "" "zero_shot" zeroShotPM (by
    have h : detect_patterns "" = [("zero_shot", zeroShotPM)] := rfl
    rw [h]
    exact List.mem_cons_self _ _)

/-- Counterexample to claim C9: `"react"` is not a catalog slug, yet template
resolution does NOT return the synthesized placeholder for it — the
substring-similarity scan resolves it to the `hwchase17/react-chat` body. -/
theorem C9_template_counterexample :
    "react" ∉ LOCAL_TEMPLATES.map Prod.fst ∧
    get_template_content "react" = (List.lookup "hwchase17/react-chat" LOCAL_TEMPLATES).getD "" ∧
    get_template_content "react" ≠ genericTemplate "react" := by
  refine ⟨by decide, by decide, by decide⟩

/-- Claim C9 as amended: template resolution never raises; a slug absent from
the catalog that is in a substring relation with some catalog slug resolves to
that (first) similar template's body, and otherwise yields the synthesized
placeholder; in particular `"nonexistent/template"` yields the placeholder
containing the literal slug with exactly the single variable `input`. -/
theorem C9_unknown_slug_synthesis :
    (∀ slug : String, List.lookup slug LOCAL_TEMPLATES = none →
      LOCAL_TEMPLATES.find? (fun kv =>
        isSubstr slug.data kv.1.data || isSubstr kv.1.data slug.data) = none →
      get_template_content slug = genericTemplate slug) ∧
    (∀ (slug : String) (kv : String × String), List.lookup slug LOCAL_TEMPLATES = none →
      LOCAL_TEMPLATES.find? (fun kv =>
        isSubstr slug.data kv.1.data || isSubstr kv.1.data slug.data) = some kv →
      get_template_content slug = kv.2) ∧
    get_template_with_metadata "nonexistent/template" =
      { content := genericTemplate "nonexistent/template"
        vars := ["input"]
        slug := "nonexistent/template"
        variable_count := 1 } ∧
    isSubstr "nonexistent/template".data
      (get_template_with_metadata "nonexistent/template").content.data = true := by
  have hcot : ∀ slug : String, List.lookup slug LOCAL_TEMPLATES = none →
      ¬ slug = "chain_of_thought" := by
    intro slug hlook h
    rw [h] at hlook
    exact Option.noConfusion ((show List.lookup "chain_of_thought" LOCAL_TEMPLATES =
      some ((List.lookup "chain_of_thought" LOCAL_TEMPLATES).getD "") from rfl).symm.trans hlook)
  refine ⟨?_, ?_, by decide, by decide⟩
  · intro slug hlook hfind
    unfold get_template_content
    rw [hlook, if_neg (hcot slug hlook), hfind]
  · intro slug kv hlook hfind
    unfold get_template_content
    rw [hlook, if_neg (hcot slug hlook), hfind]

/-- Witness for C9's universal parts at the concrete slugs
`"nonexistent/template"` (no similar catalog slug: synthesized placeholder)
and `"react"` (similar to `hwchase17/react-chat`: that template's body). -/
theorem C9_unknown_slug_synthesis_witness :
    get_template_content "nonexistent/template" = genericTemplate "nonexistent/template" ∧
    get_template_content "react" =
      ("hwchase17/react-chat",
        "Thought: {thought}\nAction: {action}\nObservation: {observation}\n\n... (repeat until task is solved)\n\nFinal Answer: {final_answer}").2 :=
  ⟨C9_unknown_slug_synthesis.1 "nonexistent/template" (by decide) (by decide),
   C9_unknown_slug_synthesis.2.1 "react" _ (by decide) (by decide)⟩
